import Mathlib

/-!
Verification of the data-driven test-parametrization engine implemented in
`src/test/gamma/conftest.py` (`pytest_generate_tests`, lines 540-712).

The engine resolves a JSON test-data file for a module, looks up the entry for
the current module/class/function, expands the argument value lists with a
`product` or `zip` strategy, filters out excluded combinations, and emits the
surviving tuples via `metafunc.parametrize`.  The embedding below translates
that logic into Lean: Python dicts become association lists, JSON scalars
become `Val`, and the hook's observable effect becomes an `Outcome`.
-/

namespace PytestSandbox

/-- A JSON-compatible scalar value, as stored in the test-data files
(string, number, boolean, or null). -/
inductive Val where
  | str (s : String)
  | num (n : Int)
  | bool (b : Bool)
  | null
  deriving DecidableEq, Repr, Inhabited

/-- `itertools.product(*valueLists)`: the Cartesian product of the value
lists, the right-most list varying fastest (`product()` with no arguments
yields one empty tuple). -/
def cartesianProduct {α : Type} : List (List α) → List (List α)
  | [] => [[]]
  | l :: rest => l.flatMap (fun v => (cartesianProduct rest).map (fun t => v :: t))

/-- `zip(*valueLists)`: positional pairing across the value lists, truncating
to the shortest list (`zip()` with no arguments yields no tuples). -/
def zipLists {α : Type} : List (List α) → List (List α)
  | [] => []
  | [l] => l.map (fun x => [x])
  | l :: rest => List.zipWith (fun x t => x :: t) l (zipLists rest)

/-- The strategy dispatch of conftest.py lines 654-660: `"product"` selects
the Cartesian product, any other strategy string selects `zip`. -/
def expandStrategy {α : Type} (strategy : String) (valueLists : List (List α)) :
    List (List α) :=
  match strategy with
  | "product" => cartesianProduct valueLists
  | _ => zipLists valueLists

/-- The exclusion's own strategy dispatch, conftest.py lines 683-689: both the
`"product"` arm and the default arm compute `product(*exclude_data.values())`. -/
def excludeExpand {α : Type} (excludeStrategy : String)
    (excludeValues : List (List α)) : List (List α) :=
  match excludeStrategy with
  | "product" => cartesianProduct excludeValues
  | _ => cartesianProduct excludeValues

/-- The exclusion filter, conftest.py lines 695-702: keep an expanded tuple
unless some excluded tuple's value-set is a subset of the tuple's value-set
(`set(exclude_value).issubset(set(argument_value))`). -/
def excludeFilter {α : Type} [DecidableEq α] (argumentValueList : List (List α))
    (excludeValueList : List (List α)) : List (List α) :=
  argumentValueList.filter (fun argumentValue =>
    !(excludeValueList.any (fun excludeValue =>
      excludeValue.all (fun x => argumentValue.contains x))))

/-- The minimum of the lengths of the lists (0 when there are no lists);
used to state the truncation behaviour of `zipLists`. -/
def minLen {α : Type} : List (List α) → Nat
  | [] => 0
  | [l] => l.length
  | l :: rest => min l.length (minLen rest)

/-- The `exclude` sub-object of a function's entry in the JSON test data:
its `strategy` and `data` keys, each possibly absent. -/
structure ExcludeField where
  strategy : Option String
  data : Option (List (String × List Val))
  deriving Repr

/-- One function's entry in the JSON test data: the `data` key (an ordered
mapping of argument name to value list), the `strategy` key, and the optional
`exclude` key.  `Option` models a possibly-absent dict key (`d["k"]` on an
absent key raises `KeyError`). -/
structure FunctionData where
  data : Option (List (String × List Val))
  strategy : Option String
  exclude : Option ExcludeField
  deriving Repr

/-- A class's entry: function name to function data (ordered dict). -/
abbrev ClassData := List (String × FunctionData)

/-- A module's entry: class name to class data (ordered dict). -/
abbrev ModuleData := List (String × ClassData)

/-- A loaded JSON document: module name to module data (ordered dict). -/
abbrev Doc := List (String × ModuleData)

/-- The state of one candidate data file on disk: absent, present but not
parseable as JSON, or present with a parsed document. -/
inductive FileState where
  | absent
  | unreadable
  | readable (doc : Doc)
  deriving Repr

/-- `Path.exists()` for a candidate data file. -/
def fsExists : FileState → Bool
  | FileState.absent => false
  | _ => true

/-- Data-file resolution, conftest.py lines 602-607: use the per-module
`{module_name}.json` when it exists, else the shared `data.json` when it
exists, else no data path (`test_data_path = None`). -/
def resolveData (perModule shared : FileState) : Option FileState :=
  if fsExists perModule then some perModule
  else if fsExists shared then some shared
  else none

/-- The observable effect of one `pytest_generate_tests` invocation:
nothing, a `pytest.skip(...)` call, an uncaught exception propagating to the
framework, or a `metafunc.parametrize(argnames, argvalues)` call. -/
inductive Outcome where
  | noAction
  | skipped (reason : String)
  | raised (message : String)
  | parametrized (argnames : List String) (argvalues : List (List Val))
  deriving Repr

/-- Whether an outcome is a skip request. -/
def isSkip : Outcome → Bool
  | Outcome.skipped _ => true
  | _ => false

/-- Whether an outcome is a `metafunc.parametrize` call. -/
def isParametrized : Outcome → Bool
  | Outcome.parametrized _ _ => true
  | _ => false

/-- The `class_condition` list of conftest.py lines 623-633, evaluated the way
Python evaluates the list literal: all three elements eagerly, in order.
Element 1 is `module_name in data`; element 2 indexes `data[module_name]`
whenever `metafunc.cls` is set (raising `KeyError` when the module key is
absent); element 3 indexes `data[module_name][metafunc.cls.__name__]`
(raising `KeyError` when either key is absent; `metafunc.function` is always
set for a collected test, so the `metafunc.cls and metafunc.function` guard
reduces to the `metafunc.cls` check). -/
def classCondition (data : Doc) (moduleName : String) (cls : Option String)
    (functionName : String) : Except String (List Bool) :=
  let c1 := (data.lookup moduleName).isSome
  match cls with
  | none => Except.ok [c1, false, false]
  | some className =>
    match data.lookup moduleName with
    | none => Except.error ("KeyError: " ++ moduleName)
    | some md =>
      let c2 := (md.lookup className).isSome
      match md.lookup className with
      | none => Except.error ("KeyError: " ++ className)
      | some cd =>
        let c3 := (cd.lookup functionName).isSome
        Except.ok [c1, c2, c3]

/-- The body of `pytest_generate_tests`, conftest.py lines 597-712, for a test
function located by `moduleName`, `cls` (the class name, `none` when the test
function is not in a class) and `functionName`, with the two candidate data
files `perModule` (`{module_name}.json`) and `shared` (`data.json`).

With the data path resolved and the file read, `json.load` failure propagates
(only `FileNotFoundError` and `TypeError` are caught, and neither can occur
once the existence check passed and the path is non-`None`, so the two
`pytest.skip` handlers at lines 614-621 are unreachable).  When all of
`class_condition` holds, the code re-indexes
`data[module_name][class_name][function_name]` (lines 640-642; the `none`
arms of those matches are unreachable), reads `function_data["data"]` and
`function_data["strategy"]` (raising `KeyError` when absent), expands,
filters by the `exclude` block when all three of its keys are present, and
calls `metafunc.parametrize`. -/
def generateTests (perModule shared : FileState) (moduleName : String)
    (cls : Option String) (functionName : String) : Outcome :=
  match resolveData perModule shared with
  | none => Outcome.noAction
  | some FileState.absent => Outcome.noAction
  | some FileState.unreadable => Outcome.raised "JSONDecodeError"
  | some (FileState.readable data) =>
    match classCondition data moduleName cls functionName with
    | Except.error e => Outcome.raised e
    | Except.ok conds =>
      if conds.all id then
        match cls with
        | none => Outcome.noAction
        | some className =>
          match data.lookup moduleName with
          | none => Outcome.raised ("KeyError: " ++ moduleName)
          | some md =>
            match md.lookup className with
            | none => Outcome.raised ("KeyError: " ++ className)
            | some cd =>
              match cd.lookup functionName with
              | none => Outcome.raised ("KeyError: " ++ functionName)
              | some fd =>
                match fd.data with
                | none => Outcome.raised "KeyError: data"
                | some testData =>
                  match fd.strategy with
                  | none => Outcome.raised "KeyError: strategy"
                  | some strategy =>
                    let argumentNameList := testData.map Prod.fst
                    let argumentValueList :=
                      expandStrategy strategy (testData.map Prod.snd)
                    let finalValueList :=
                      match fd.exclude with
                      | some ex =>
                        match ex.strategy, ex.data with
                        | some excludeStrategy, some excludeData =>
                          excludeFilter argumentValueList
                            (excludeExpand excludeStrategy
                              (excludeData.map Prod.snd))
                        | _, _ => argumentValueList
                      | none => argumentValueList
                    Outcome.parametrized argumentNameList finalValueList
      else Outcome.noAction

/-! ### Helper lemmas about the expansion functions -/

theorem length_cartesianProduct {α : Type} (ls : List (List α)) :
    (cartesianProduct ls).length = (ls.map List.length).prod := by
  induction ls with
  | nil => rfl
  | cons l rest ih =>
    simp [cartesianProduct, List.length_flatMap, Function.comp_def, ih,
      List.map_const', List.sum_replicate, smul_eq_mul]

theorem mem_cartesianProduct {α : Type} (ls : List (List α)) (t : List α) :
    t ∈ cartesianProduct ls ↔ List.Forall₂ (fun v l => v ∈ l) t ls := by
  induction ls generalizing t with
  | nil =>
    simp [cartesianProduct, List.forall₂_nil_right_iff]
  | cons l rest ih =>
    simp only [cartesianProduct, List.mem_flatMap, List.mem_map,
      List.forall₂_cons_right_iff, ih]
    constructor
    · rintro ⟨v, hv, t', ht', rfl⟩
      exact ⟨v, t', hv, ht', rfl⟩
    · rintro ⟨v, t', hv, ht', rfl⟩
      exact ⟨v, hv, t', ht', rfl⟩

theorem cartesianProduct_eq_nil_of_mem_nil {α : Type} (ls : List (List α))
    (h : [] ∈ ls) : cartesianProduct ls = [] := by
  have h0 : (0 : ℕ) ∈ ls.map List.length := by
    exact List.mem_map.mpr ⟨[], h, rfl⟩
  have := length_cartesianProduct ls
  rw [List.prod_eq_zero h0] at this
  exact List.length_eq_zero.mp this

theorem length_zipLists {α : Type} :
    ∀ ls : List (List α), (zipLists ls).length = minLen ls
  | [] => rfl
  | [l] => by simp [zipLists, minLen]
  | l :: l' :: rest => by
    have ih := length_zipLists (l' :: rest)
    simp [zipLists, minLen, List.length_zipWith, ih]

theorem minLen_of_equal_lengths {α : Type} :
    ∀ (ls : List (List α)) (k : Nat), ls ≠ [] → (∀ l ∈ ls, l.length = k) →
      minLen ls = k
  | [], _, h, _ => absurd rfl h
  | [l], k, _, hk => by simp [minLen, hk l (by simp)]
  | l :: l' :: rest, k, _, hk => by
    have ih := minLen_of_equal_lengths (l' :: rest) k (by simp)
      (fun x hx => hk x (List.mem_cons_of_mem l hx))
    simp [minLen, ih, hk l (by simp)]

theorem getD_zipLists {α : Type} :
    ∀ (ls : List (List α)) (i : Nat) (d : α), i < (zipLists ls).length →
      (zipLists ls).getD i [] = ls.map (fun l => l.getD i d)
  | [], i, d, h => by simp [zipLists] at h
  | [l], i, d, h => by
    simp only [zipLists] at h ⊢
    have hi : i < l.length := by simpa using h
    rw [List.getD_eq_getElem _ _ h, List.getElem_map, List.map_cons, List.map_nil,
      List.getD_eq_getElem _ _ hi]
  | l :: l' :: rest, i, d, h => by
    have hlen := length_zipLists (α := α) (l' :: rest)
    simp only [zipLists, List.length_zipWith] at h
    have hi1 : i < l.length := lt_of_lt_of_le h (by simp [inf_le_left])
    have hi2 : i < (zipLists (l' :: rest)).length :=
      lt_of_lt_of_le h (by simp [inf_le_right])
    have ih := getD_zipLists (l' :: rest) i d hi2
    rw [List.getD_eq_getElem _ _ (by simpa [zipLists, List.length_zipWith] using h)]
    simp only [zipLists] at *
    rw [List.getElem_zipWith]
    rw [List.getD_eq_getElem _ _ hi2] at ih
    simp only [List.map_cons]
    rw [ih, List.getD_eq_getElem _ _ hi1]
    simp

theorem expandStrategy_product {α : Type} (valueLists : List (List α)) :
    expandStrategy "product" valueLists = cartesianProduct valueLists := rfl

theorem expandStrategy_zip {α : Type} (valueLists : List (List α)) :
    expandStrategy "zip" valueLists = zipLists valueLists := rfl

/-! ### Claims -/

/-- Claim C1: the exclusion filter removes an expanded tuple `t` iff some
excluded tuple `e` has `set(e) ⊆ set(t)`; no non-matching tuple is removed,
and the survivors keep their original relative order (the result is a
sublist of the input). -/
theorem claim_C1_exclusion_filter :
    (∀ (l excl : List (List Val)) (t : List Val),
      t ∈ excludeFilter l excl ↔
        t ∈ l ∧ ¬ ∃ e ∈ excl, ∀ x ∈ e, x ∈ t)
    ∧ (∀ (l excl : List (List Val)), List.Sublist (excludeFilter l excl) l) := by
  constructor
  · intro l excl t
    simp [excludeFilter, List.mem_filter]
  · intro l excl
    exact List.filter_sublist l

/-- Claim C1 witness: a tuple matching no excluded tuple survives the
filter. -/
theorem claim_C1_exclusion_filter_witness :
    [Val.num 2, Val.num 10] ∈
      excludeFilter [[Val.num 1, Val.num 10], [Val.num 2, Val.num 10]]
        [[Val.num 1]] :=
  (claim_C1_exclusion_filter.1 _ _ _).mpr ⟨by decide, by decide⟩

/-- Claim C2: expansion with strategy `"product"` is the Cartesian product of
the value lists: its size is the product of the list lengths, its members are
exactly the tuples choosing one value from each list in order, an empty list
for any argument yields an empty result, and `{x: [1, 2], y: [10, 20]}`
yields `[(1, 10), (1, 20), (2, 10), (2, 20)]` (right-most argument varying
fastest). -/
theorem claim_C2_product_expansion :
    (∀ valueLists : List (List Val),
      (expandStrategy "product" valueLists).length =
        (valueLists.map List.length).prod)
    ∧ (∀ (valueLists : List (List Val)) (t : List Val),
      t ∈ expandStrategy "product" valueLists ↔
        List.Forall₂ (fun v l => v ∈ l) t valueLists)
    ∧ (∀ valueLists : List (List Val),
      [] ∈ valueLists → expandStrategy "product" valueLists = [])
    ∧ expandStrategy "product" [[Val.num 1, Val.num 2], [Val.num 10, Val.num 20]]
      = [[Val.num 1, Val.num 10], [Val.num 1, Val.num 20],
         [Val.num 2, Val.num 10], [Val.num 2, Val.num 20]] := by
  refine ⟨?_, ?_, ?_, by decide⟩
  · intro valueLists
    rw [expandStrategy_product]
    exact length_cartesianProduct valueLists
  · intro valueLists t
    rw [expandStrategy_product]
    exact mem_cartesianProduct valueLists t
  · intro valueLists h
    rw [expandStrategy_product]
    exact cartesianProduct_eq_nil_of_mem_nil valueLists h

/-- Claim C2 witness: an empty value list yields an empty product
expansion. -/
theorem claim_C2_product_expansion_witness :
    ([] : List Val) ∈ [[Val.num 1, Val.num 2], ([] : List Val)]
    ∧ expandStrategy "product" [[Val.num 1, Val.num 2], ([] : List Val)] = [] :=
  ⟨by decide, claim_C2_product_expansion.2.2.1 _ (by decide)⟩

/-- Claim C3: expansion with strategy `"zip"` pairs the `i`-th elements of
all value lists positionally; its length is the minimum of the list lengths
(so equal-length lists of length `k` give exactly `k` tuples, and unequal
lengths truncate to the shortest), and `{x: [1, 2], y: [10, 20]}` yields
`[(1, 10), (2, 20)]`. -/
theorem claim_C3_zip_expansion :
    (∀ valueLists : List (List Val),
      (expandStrategy "zip" valueLists).length = minLen valueLists)
    ∧ (∀ (valueLists : List (List Val)) (k : Nat), valueLists ≠ [] →
      (∀ l ∈ valueLists, l.length = k) →
      (expandStrategy "zip" valueLists).length = k)
    ∧ (∀ (valueLists : List (List Val)) (i : Nat) (d : Val),
      i < (expandStrategy "zip" valueLists).length →
      (expandStrategy "zip" valueLists).getD i [] =
        valueLists.map (fun l => l.getD i d))
    ∧ expandStrategy "zip" [[Val.num 1, Val.num 2], [Val.num 10, Val.num 20]]
      = [[Val.num 1, Val.num 10], [Val.num 2, Val.num 20]] := by
  refine ⟨?_, ?_, ?_, by decide⟩
  · intro valueLists
    rw [expandStrategy_zip]
    exact length_zipLists valueLists
  · intro valueLists k hne hk
    rw [expandStrategy_zip, length_zipLists]
    exact minLen_of_equal_lengths valueLists k hne hk
  · intro valueLists i d h
    rw [expandStrategy_zip] at h ⊢
    exact getD_zipLists valueLists i d h

/-- Claim C3 witness: two equal-length lists of length 2 yield exactly 2
tuples under the zip strategy. -/
theorem claim_C3_zip_expansion_witness :
    (expandStrategy "zip" [[Val.num 1, Val.num 2], [Val.num 10, Val.num 20]]).length
      = 2 :=
  claim_C3_zip_expansion.2.1 _ 2 (by decide) (by decide)

/-- Claim C8: both arms of the exclusion's own strategy dispatch expand the
excluded combinations as the Cartesian product of the exclusion's value
lists, whatever the strategy string is. -/
theorem claim_C8_exclude_strategy_collapse :
    ∀ (s : String) (excludeValues : List (List Val)),
      excludeExpand s excludeValues = cartesianProduct excludeValues := by
  intro s excludeValues
  unfold excludeExpand
  split <;> rfl

/-- Claim C4 counterexample: when neither the per-module data file nor the
shared `data.json` exists, the hook does not request a skip — it takes no
action at all (`test_data_path` stays `None` and the whole injection block is
bypassed), so the claimed skip signal never happens. -/
theorem claim_C4_counterexample :
    isSkip (generateTests FileState.absent FileState.absent "m" (some "C") "f")
      = false
    ∧ generateTests FileState.absent FileState.absent "m" (some "C") "f"
      = Outcome.noAction := ⟨rfl, rfl⟩

/-- Claim C4 (amended): when neither data file exists, resolution yields no
action — no skip, no parametrization, and no exception surfaced to the
framework. -/
theorem claim_C4_no_data_no_action :
    ∀ (moduleName : String) (cls : Option String) (functionName : String),
      generateTests FileState.absent FileState.absent moduleName cls functionName
        = Outcome.noAction := by
  intro moduleName cls functionName
  rfl

/-- Claim C5 counterexample: a data file that exists but cannot be parsed
makes `json.load` raise `JSONDecodeError`, which is not among the caught
exception types (`FileNotFoundError`, `TypeError`), so the hook raises
instead of requesting a skip. -/
theorem claim_C5_counterexample :
    generateTests FileState.unreadable FileState.absent "m" (some "C") "f"
      = Outcome.raised "JSONDecodeError"
    ∧ isSkip (generateTests FileState.unreadable FileState.absent "m"
        (some "C") "f") = false := ⟨rfl, rfl⟩

/-- Claim C5 (amended): when the resolved data file exists but cannot be
parsed, the parse failure propagates to the framework as an uncaught
`JSONDecodeError`; no skip is requested. -/
theorem claim_C5_parse_failure_raises :
    ∀ (shared : FileState) (moduleName : String) (cls : Option String)
      (functionName : String),
      generateTests FileState.unreadable shared moduleName cls functionName
        = Outcome.raised "JSONDecodeError" := by
  intro shared moduleName cls functionName
  rfl

/-- Claim C6 (code bug): for a class-scoped test function, when the loaded
document has no entry for the module name, evaluating the `class_condition`
list literal eagerly indexes `data[module_name]` and raises `KeyError`
instead of treating the mismatch as "no parametrization". -/
theorem claim_C6_module_mismatch_raises :
    generateTests (FileState.readable []) FileState.absent "m" (some "C") "f"
      = Outcome.raised "KeyError: m" := rfl

/-- Claim C7 counterexample: a spec whose `strategy` key is absent does not
fall back to zip — `function_data["strategy"]` raises `KeyError`, so an
unspecified strategy is an error. -/
theorem claim_C7_counterexample :
    generateTests
      (FileState.readable
        [("m", [("C", [("f",
          { data := some [("x", [Val.num 1])], strategy := none,
            exclude := none })])])])
      FileState.absent "m" (some "C") "f"
      = Outcome.raised "KeyError: strategy" := by rfl

/-- Claim C7 (amended): when the `strategy` key is present, any strategy
string other than `"product"` falls back to the zip strategy; an absent
`strategy` key, however, raises `KeyError`. -/
theorem claim_C7_unrecognized_strategy_zips (s : String) (hs : s ≠ "product")
    (testData : List (String × List Val)) :
    generateTests
      (FileState.readable
        [("m", [("C", [("f",
          { data := some testData, strategy := some s, exclude := none })])])])
      FileState.absent "m" (some "C") "f"
      = Outcome.parametrized (testData.map Prod.fst)
          (zipLists (testData.map Prod.snd)) := by
  show Outcome.parametrized (testData.map Prod.fst)
      (expandStrategy s (testData.map Prod.snd)) = _
  unfold expandStrategy
  split
  · exact absurd rfl hs
  · rfl

/-- Claim C7 witness: the strategy string `"zip"` is expanded with the zip
strategy. -/
theorem claim_C7_unrecognized_strategy_zips_witness :
    generateTests
      (FileState.readable
        [("m", [("C", [("f",
          { data := some [("x", [Val.num 1, Val.num 2])], strategy := some "zip",
            exclude := none })])])])
      FileState.absent "m" (some "C") "f"
      = Outcome.parametrized ["x"] (zipLists [[Val.num 1, Val.num 2]]) :=
  claim_C7_unrecognized_strategy_zips "zip" (by decide)
    [("x", [Val.num 1, Val.num 2])]

/-- Claim C9: data-file resolution uses the per-module file whenever it
exists (in particular when both files exist), falls back to the shared
`data.json` when only that one exists, and reports not-found when neither
exists. -/
theorem claim_C9_resolution_order (perModule shared : FileState) :
    (fsExists perModule = true → resolveData perModule shared = some perModule)
    ∧ (fsExists perModule = false → fsExists shared = true →
        resolveData perModule shared = some shared)
    ∧ (fsExists perModule = false → fsExists shared = false →
        resolveData perModule shared = none) := by
  refine ⟨fun h1 => ?_, fun h1 h2 => ?_, fun h1 h2 => ?_⟩ <;>
    simp [resolveData, h1]
  · simp [h2]
  · simp [h2]

/-- Claim C9 witness: with both files existing, the per-module file is the
one used. -/
theorem claim_C9_resolution_order_witness :
    resolveData (FileState.readable []) (FileState.readable [("m", [])])
      = some (FileState.readable []) :=
  (claim_C9_resolution_order (FileState.readable [])
    (FileState.readable [("m", [])])).1 rfl

/-- Claim C10: a test function not inside a class (`metafunc.cls is None`) is
never parametrized, whatever the data files contain: two of the three
`class_condition` entries are `False`, so the `all(...)` guard fails. -/
theorem claim_C10_no_class_never_parametrized :
    ∀ (perModule shared : FileState) (moduleName functionName : String),
      isParametrized
        (generateTests perModule shared moduleName none functionName) = false := by
  intro perModule shared moduleName functionName
  cases perModule <;> cases shared <;>
    simp [generateTests, resolveData, fsExists, classCondition, isParametrized]

end PytestSandbox
